import Mathlib

/-!
Verification development for the EMCal_exercise physics-list repository.

The repository defines three thin subclasses of Geant4 physics-list
classes (EMPhysics, TherapyPhysics, MyQGSP_BERT) and a boost::python
binding module (libphyslist).  Each constructor body is a straight-line
sequence of framework calls; we embed those bodies as literal lists of
statements and give them an executable small-step semantics.  Class
declarations (headers) and the binding module are embedded as data.
-/

namespace EMCal

/-- CLHEP system of units: energies are measured in MeV, so the
framework constant `MeV` is 1 (from G4SystemOfUnits.hh). -/
def MeV : ℚ := 1

/-- The externally supplied physics-constructor classes that the
repository instantiates. -/
inductive CtorKind
  | G4EmStandardPhysics
  | G4StepLimiterPhysics
  | G4NeutronTrackingCut
deriving DecidableEq, Repr

/-- State of one instantiated physics-constructor object: its class,
the verbosity it was constructed with, and (for the neutron tracking
cut) the kinetic-energy limit if one has been set. -/
structure ObjState where
  kind : CtorKind
  verbose : Int
  kineticEnergyLimit : Option ℚ
deriving DecidableEq, Repr

/-- One straight-line statement of a constructor body, as written in
the source.  `newObj x k v` is `new <k>(v)` bound to local slot `x`;
the other constructors are the corresponding framework calls. -/
inductive Stmt
  | coutLine (msg : String)
  | setVerboseLevel (v : Int)
  | newObj (x : Nat) (kind : CtorKind) (verbose : Int)
  | setKineticEnergyLimit (x : Nat) (limit : ℚ)
  | registerPhysics (x : Nat)
deriving DecidableEq, Repr

/-- Execution state threaded through a constructor body.  `registered`
holds, in registration order, a snapshot of each object at the moment
`RegisterPhysics` was called on it. -/
structure ExecState where
  verboseLevel : Option Int
  objs : List (Nat × ObjState)
  registered : List ObjState
  coutLines : List String
deriving DecidableEq, Repr

def ExecState.init : ExecState :=
  { verboseLevel := none, objs := [], registered := [], coutLines := [] }

/-- Update the kinetic-energy limit of the object in slot `x`. -/
def setLimitIn (x : Nat) (limit : ℚ) :
    List (Nat × ObjState) → List (Nat × ObjState)
  | [] => []
  | (y, o) :: rest =>
      if y = x then
        (y, { o with kineticEnergyLimit := some limit }) :: rest
      else
        (y, o) :: setLimitIn x limit rest

/-- Small-step semantics of one statement. -/
def step (s : ExecState) : Stmt → ExecState
  | .coutLine msg => { s with coutLines := s.coutLines ++ [msg] }
  | .setVerboseLevel v => { s with verboseLevel := some v }
  | .newObj x kind verbose =>
      { s with objs := s.objs ++ [(x, ⟨kind, verbose, none⟩)] }
  | .setKineticEnergyLimit x limit =>
      { s with objs := setLimitIn x limit s.objs }
  | .registerPhysics x =>
      match s.objs.lookup x with
      | some o => { s with registered := s.registered ++ [o] }
      | none => s

/-- Run a constructor body from the initial state. -/
def runBody (body : List Stmt) : ExecState :=
  body.foldl step ExecState.init

/-- The base-class subobject initialization performed by a constructor:
either a Geant4 reference physics list constructed with a verbosity, or
the default-constructed G4VModularPhysicsList. -/
inductive BaseInit
  | QGSP_BIC (verbose : Int)
  | QGSP_BERT (verbose : Int)
  | G4VModularPhysicsList
deriving DecidableEq, Repr

/-- A constructor, embedded: its base-initializer and its body. -/
structure CtorExec where
  base : BaseInit
  body : List Stmt
deriving DecidableEq, Repr

/-- `EMPhysics::EMPhysics(G4int ver)` from EMPhysics.cc: default
G4VModularPhysicsList base, two output lines, `SetVerboseLevel(ver)`,
then `RegisterPhysics(new G4EmStandardPhysics(ver))`. -/
def EMPhysics.ctor (ver : Int) : CtorExec :=
  { base := .G4VModularPhysicsList
  , body :=
      [ .coutLine "<<< Geant4 Physics List simulation engine: EMPhysics"
      , .coutLine ""
      , .setVerboseLevel ver
      , .newObj 0 .G4EmStandardPhysics ver
      , .registerPhysics 0 ] }

/-- `TherapyPhysics::TherapyPhysics(G4int verbose) : QGSP_BIC(verbose)`
from the TherapyPhysics implementation file: one output line, then
`RegisterPhysics(new G4StepLimiterPhysics(verbose))`. -/
def TherapyPhysics.ctor (verbose : Int) : CtorExec :=
  { base := .QGSP_BIC verbose
  , body :=
      [ .coutLine "###Adding step limiter physics to the list..."
      , .coutLine ""
      , .newObj 0 .G4StepLimiterPhysics verbose
      , .registerPhysics 0 ] }

/-- `MyQGSP_BERT::MyQGSP_BERT(G4int verbose) : QGSP_BERT(verbose)` from
the MyQGSP_BERT implementation file: allocate a G4NeutronTrackingCut,
set its kinetic-energy limit to 0.5*MeV, register it, then register a
new G4StepLimiterPhysics, with output lines in between. -/
def MyQGSP_BERT.ctor (verbose : Int) : CtorExec :=
  { base := .QGSP_BERT verbose
  , body :=
      [ .newObj 0 .G4NeutronTrackingCut verbose
      , .setKineticEnergyLimit 0 (0.5 * MeV)
      , .registerPhysics 0
      , .coutLine "###Changing the neutron cuts of the physicslist..."
      , .coutLine ""
      , .newObj 1 .G4StepLimiterPhysics verbose
      , .registerPhysics 1
      , .coutLine "###Adding step limiter physics to the Geant4 simulation engine..."
      , .coutLine "" ] }

/-- The three classes defined by this repository. -/
inductive RepoClass
  | EMPhysics
  | TherapyPhysics
  | MyQGSP_BERT
deriving DecidableEq, Repr

/-- The embedded constructor of each repository class. -/
def ctorOf : RepoClass → Int → CtorExec
  | .EMPhysics => EMPhysics.ctor
  | .TherapyPhysics => TherapyPhysics.ctor
  | .MyQGSP_BERT => MyQGSP_BERT.ctor

/-- The kinds of the physics constructors registered by a constructor,
in registration order. -/
def registeredKinds (c : CtorExec) : List CtorKind :=
  ((runBody c.body).registered).map ObjState.kind

/-- The verbosity values carried by the registered physics
constructors, in registration order. -/
def registeredVerboses (c : CtorExec) : List Int :=
  ((runBody c.body).registered).map ObjState.verbose

/-- One statement of a SetCuts override body.  Both overrides in the
repository consist of a single call to the parent implementation. -/
inductive SetCutsStmt
  | callParentSetCuts (parent : String)
deriving DecidableEq, Repr

/-- The SetCuts override of each class, if the class declares one.
EMPhysics declares no SetCuts member (EMPhysics.hh); TherapyPhysics
calls `QGSP_BIC::SetCuts()`; MyQGSP_BERT calls `QGSP_BERT::SetCuts()`. -/
def setCutsOverride : RepoClass → Option (List SetCutsStmt)
  | .EMPhysics => none
  | .TherapyPhysics => some [.callParentSetCuts "QGSP_BIC"]
  | .MyQGSP_BERT => some [.callParentSetCuts "QGSP_BERT"]

/-- A class declaration as written in the header files: name, base
class, data members, declared member functions, and whether the copy
constructor and copy assignment operator are declared `=delete`. -/
structure ClassDecl where
  name : String
  base : String
  dataMembers : List String
  declaredMethods : List String
  deletedCopyCtor : Bool
  deletedCopyAssign : Bool
deriving DecidableEq, Repr

/-- The header declaration of each repository class.  TherapyPhysics.hh
and MyQGSP_BERT.hh declare a constructor, a destructor and SetCuts with
an empty private section; EMPhysics.hh declares a constructor, a
defaulted destructor, and deletes the copy operations. -/
def classDecl : RepoClass → ClassDecl
  | .EMPhysics =>
      { name := "EMPhysics", base := "G4VModularPhysicsList"
      , dataMembers := []
      , declaredMethods := ["EMPhysics", "~EMPhysics"]
      , deletedCopyCtor := true, deletedCopyAssign := true }
  | .TherapyPhysics =>
      { name := "TherapyPhysics", base := "QGSP_BIC"
      , dataMembers := []
      , declaredMethods := ["TherapyPhysics", "~TherapyPhysics", "SetCuts"]
      , deletedCopyCtor := false, deletedCopyAssign := false }
  | .MyQGSP_BERT =>
      { name := "MyQGSP_BERT", base := "QGSP_BERT"
      , dataMembers := []
      , declaredMethods := ["MyQGSP_BERT", "~MyQGSP_BERT", "SetCuts"]
      , deletedCopyCtor := false, deletedCopyAssign := false }

/-- The default argument of each public constructor, as declared in the
headers (`G4int verbose = 1` resp. `G4int ver = 1`). -/
def defaultVerbose : RepoClass → Int
  | .EMPhysics => 1
  | .TherapyPhysics => 1
  | .MyQGSP_BERT => 1

/-- Constructing a repository class with no argument: the default
argument is substituted for the verbosity parameter. -/
def ctorNoArg (c : RepoClass) : CtorExec :=
  ctorOf c (defaultVerbose c)

/-- One `class_<...>` entry of the boost::python binding module: the
wrapped C++ class, its declared base, whether it is marked
boost::noncopyable, and the docstring. -/
structure PyClassEntry where
  cxxClass : String
  base : String
  noncopyable : Bool
  docstring : String
deriving DecidableEq, Repr

/-- `BOOST_PYTHON_MODULE(libphyslist)` from gMyPhysicsLists.cc: the
three class entries, in source order, each marked noncopyable. -/
def libphyslist : List PyClassEntry :=
  [ { cxxClass := "MyQGSP_BERT", base := "QGSP_BERT"
    , noncopyable := true
    , docstring := "physics list with steplimit support" }
  , { cxxClass := "TherapyPhysics", base := "QGSP_BIC"
    , noncopyable := true
    , docstring := "physics list for lower energies" }
  , { cxxClass := "EMPhysics", base := "G4VModularPhysicsList"
    , noncopyable := true
    , docstring := "physics list for lower energies" } ]

/-- The shape of a statement: its kind with all arguments erased, used
to state that a constructor body is the same fixed sequence of calls
for every verbosity value. -/
inductive StmtTag
  | coutLine
  | setVerboseLevel
  | newObj
  | setKineticEnergyLimit
  | registerPhysics
deriving DecidableEq, Repr

/-- Erase a statement to its shape. -/
def Stmt.tag : Stmt → StmtTag
  | .coutLine _ => .coutLine
  | .setVerboseLevel _ => .setVerboseLevel
  | .newObj _ _ _ => .newObj
  | .setKineticEnergyLimit _ _ => .setKineticEnergyLimit
  | .registerPhysics _ => .registerPhysics

/-- The shape of a base initializer, with the verbosity erased. -/
inductive BaseTag
  | QGSP_BIC
  | QGSP_BERT
  | G4VModularPhysicsList
deriving DecidableEq, Repr

/-- Erase a base initializer to its shape. -/
def BaseInit.tag : BaseInit → BaseTag
  | .QGSP_BIC _ => .QGSP_BIC
  | .QGSP_BERT _ => .QGSP_BERT
  | .G4VModularPhysicsList => .G4VModularPhysicsList

/-- Claim C1: for every verbosity value, EMPhysics registers exactly one
G4EmStandardPhysics, TherapyPhysics registers exactly one
G4StepLimiterPhysics on top of its QGSP_BIC base, and MyQGSP_BERT
registers exactly a G4NeutronTrackingCut followed by a
G4StepLimiterPhysics on top of its QGSP_BERT base, and nothing else. -/
theorem C1_fixed_registered_ctors (v : Int) :
    registeredKinds (ctorOf .EMPhysics v) = [.G4EmStandardPhysics] ∧
    (ctorOf .TherapyPhysics v).base = .QGSP_BIC v ∧
    registeredKinds (ctorOf .TherapyPhysics v) = [.G4StepLimiterPhysics] ∧
    (ctorOf .MyQGSP_BERT v).base = .QGSP_BERT v ∧
    registeredKinds (ctorOf .MyQGSP_BERT v) =
      [.G4NeutronTrackingCut, .G4StepLimiterPhysics] :=
  ⟨rfl, rfl, rfl, rfl, rfl⟩

/-- Claim C2, counterexample: it is not the case that every class in
the repository overrides SetCuts, because EMPhysics declares no SetCuts
member in its header. -/
theorem C2_counterexample :
    ¬ ∀ c : RepoClass, (setCutsOverride c).isSome = true := by
  intro h
  have hEM := h RepoClass.EMPhysics
  simp [setCutsOverride] at hEM

/-- Claim C2, amended: only TherapyPhysics and MyQGSP_BERT override
SetCuts, and each of those overrides consists of exactly one call to
the parent class implementation, with no other effect; EMPhysics does
not override SetCuts. -/
theorem C2_setcuts_delegation :
    setCutsOverride RepoClass.EMPhysics = none ∧
    setCutsOverride RepoClass.TherapyPhysics =
      some [.callParentSetCuts "QGSP_BIC"] ∧
    setCutsOverride RepoClass.MyQGSP_BERT =
      some [.callParentSetCuts "QGSP_BERT"] ∧
    ∀ c : RepoClass,
      setCutsOverride c = none ∨
      setCutsOverride c = some [.callParentSetCuts (classDecl c).base] := by
  refine ⟨rfl, rfl, rfl, ?_⟩
  intro c
  cases c
  · exact Or.inl rfl
  · exact Or.inr rfl
  · exact Or.inr rfl

/-- Claim C3: in the MyQGSP_BERT constructor, the kinetic-energy limit
is set on the neutron tracking cut object strictly before that object
is registered: the SetKineticEnergyLimit statement precedes the
RegisterPhysics statement in the body, and the snapshot taken of the
object at registration time already carries the limit. -/
theorem C3_limit_set_before_register (v : Int) :
    (∃ i j : Nat, i < j ∧
      (MyQGSP_BERT.ctor v).body[i]? =
        some (.setKineticEnergyLimit 0 (0.5 * MeV)) ∧
      (MyQGSP_BERT.ctor v).body[j]? = some (.registerPhysics 0)) ∧
    ((runBody (MyQGSP_BERT.ctor v).body).registered).head? =
      some ⟨.G4NeutronTrackingCut, v, some (0.5 * MeV)⟩ :=
  ⟨⟨1, 2, by omega, rfl, rfl⟩, rfl⟩

/-- Claim C4: the boost::python module libphyslist exposes exactly the
three classes MyQGSP_BERT, TherapyPhysics and EMPhysics, each together
with its base (QGSP_BERT, QGSP_BIC and G4VModularPhysicsList
respectively), and nothing else. -/
theorem C4_binding_exposes_three_classes :
    libphyslist.map (fun e => (e.cxxClass, e.base)) =
      [("MyQGSP_BERT", "QGSP_BERT"),
       ("TherapyPhysics", "QGSP_BIC"),
       ("EMPhysics", "G4VModularPhysicsList")] ∧
    libphyslist.length = 3 :=
  ⟨rfl, rfl⟩

/-- Claim C5: none of the three classes declares any data member of its
own; the constructor bodies act only on framework objects (the
statement language of the embedding consists solely of framework
calls), so no repository-defined operation reads or writes
repository-local state. -/
theorem C5_no_repository_local_state :
    ∀ c : RepoClass, (classDecl c).dataMembers = [] := by
  intro c
  cases c <;> rfl

/-- Claim C6: each constructor body is a fixed straight-line sequence
of calls whose shape does not depend on the verbosity argument, with
the concrete statement shapes listed here; the embedded statement
language has no branch, loop or error-handling construct, mirroring the
source. -/
theorem C6_straight_line_bodies (v w : Int) :
    (ctorOf .EMPhysics v).body.map Stmt.tag =
      [.coutLine, .coutLine, .setVerboseLevel, .newObj, .registerPhysics] ∧
    (ctorOf .TherapyPhysics v).body.map Stmt.tag =
      [.coutLine, .coutLine, .newObj, .registerPhysics] ∧
    (ctorOf .MyQGSP_BERT v).body.map Stmt.tag =
      [.newObj, .setKineticEnergyLimit, .registerPhysics, .coutLine,
       .coutLine, .newObj, .registerPhysics, .coutLine, .coutLine] ∧
    ∀ c : RepoClass,
      (ctorOf c v).body.map Stmt.tag = (ctorOf c w).body.map Stmt.tag ∧
      ((ctorOf c v).base).tag = ((ctorOf c w).base).tag := by
  refine ⟨rfl, rfl, rfl, ?_⟩
  intro c
  cases c
  · exact ⟨rfl, rfl⟩
  · exact ⟨rfl, rfl⟩
  · exact ⟨rfl, rfl⟩

/-- Claim C7: every verbosity value v is forwarded unchanged to the
inherited framework (to the QGSP_BIC or QGSP_BERT base constructor, or
via SetVerboseLevel for EMPhysics) and to every physics constructor
object registered by the constructor. -/
theorem C7_verbosity_forwarded (v : Int) :
    ((ctorOf .EMPhysics v).base = .G4VModularPhysicsList ∧
     (runBody (ctorOf .EMPhysics v).body).verboseLevel = some v ∧
     registeredVerboses (ctorOf .EMPhysics v) = [v]) ∧
    ((ctorOf .TherapyPhysics v).base = .QGSP_BIC v ∧
     registeredVerboses (ctorOf .TherapyPhysics v) = [v]) ∧
    ((ctorOf .MyQGSP_BERT v).base = .QGSP_BERT v ∧
     registeredVerboses (ctorOf .MyQGSP_BERT v) = [v, v]) :=
  ⟨⟨rfl, rfl, rfl⟩, ⟨rfl, rfl⟩, ⟨rfl, rfl⟩⟩

/-- Claim C8: for every verbosity value, the neutron tracking cut
registered by the MyQGSP_BERT constructor carries a kinetic-energy
limit of exactly 0.5 times the MeV unit constant, which equals the
rational 1/2 in CLHEP units. -/
theorem C8_neutron_cut_threshold (v : Int) :
    ((runBody (MyQGSP_BERT.ctor v).body).registered).map
        ObjState.kineticEnergyLimit =
      [some (0.5 * MeV), none] ∧
    (0.5 * MeV : ℚ) = 1 / 2 := by
  refine ⟨rfl, ?_⟩
  norm_num [MeV]

/-- Claim C9: each of the three public constructors has default
verbosity argument 1, so constructing with no argument behaves
identically to constructing with verbosity 1. -/
theorem C9_default_verbosity_one :
    (∀ c : RepoClass, defaultVerbose c = 1) ∧
    (∀ c : RepoClass, ctorNoArg c = ctorOf c 1) := by
  constructor
  · intro c; cases c <;> rfl
  · intro c; cases c <;> rfl

/-- Claim C10: EMPhysics deletes both its copy constructor and its copy
assignment operator, and all three classes are exposed to the scripting
layer as boost::noncopyable, so the public surface offers no copy
operation. -/
theorem C10_noncopyable :
    (classDecl RepoClass.EMPhysics).deletedCopyCtor = true ∧
    (classDecl RepoClass.EMPhysics).deletedCopyAssign = true ∧
    libphyslist.all (fun e => e.noncopyable) = true :=
  ⟨rfl, rfl, rfl⟩

end EMCal
